import Mathlib

/-!
Shallow embedding of `city_config.py` (repository BIZWIZV2.1): the
city-configuration store (`CityConfigManager`) with its data model
(`CityBounds`, `CityDemographics`, `CityMarketData`, `CityCompetitorData`,
`CityConfiguration`), its YAML persistence (`save_configs` / `load_configs`)
and its mutating operations (`set_current_city`, `add_city`, `remove_city`).

Modelling conventions:
* Python floats and ints are modelled as exact rationals (`Rat`).
* A Python `dict` is an insertion-ordered association list with unique keys;
  `dict[k] = v` replaces in place or appends, `del dict[k]` removes,
  `next(iter(d.keys()))` is the head of the key list.
* The fields of `CityDemographics` annotated `Tuple[...]` can in fact hold
  either a Python tuple (as written by `_create_default_configs`) or a
  Python list (as produced by `yaml.safe_load` of a stored file); `PyPair`
  records the distinction because `yaml.dump` serializes the two
  differently.
* The backing file is modelled by `FileState`: missing, unreadable garbage,
  or a document whose YAML node tree is a `Yaml` value.  `Yaml.map` entries
  model the Python dict handed to / produced by the YAML layer in insertion
  order (the purely textual key sorting applied by `yaml.dump` is not
  observable through any store operation and is not modelled).
* `yaml.dump` with the default `Dumper` serializes a Python tuple with the
  tag `tag:yaml.org,2002:python/tuple` (constructor `Yaml.pytuple`;
  see PyYAML `representer.py`, `Representer.represent_tuple`), while
  `yaml.safe_load` raises `ConstructorError` on any occurrence of that tag
  (`Yaml.hasPyTuple`); values loaded through `yaml.safe_load` therefore
  never contain `Yaml.pytuple`.
* Values read from a file are parsed at the types the dataclass fields
  intend (numbers for numeric fields, strings for string fields); a file
  storing values of unexpected types at those positions is treated as
  malformed.
-/

/-- Value held in one of the `Tuple[...]`-annotated fields of
`CityDemographics`: a Python 2-tuple of numbers (as written by
`_create_default_configs`) or a Python list of numbers (as produced by
loading a YAML sequence). -/
inductive PyPair where
  | tup (a b : Rat)
  | lst (l : List Rat)
deriving DecidableEq, Repr

/-- Python dataclass `CityBounds`: geographic boundaries for a city. -/
structure CityBounds where
  min_lat : Rat
  max_lat : Rat
  min_lon : Rat
  max_lon : Rat
  center_lat : Rat
  center_lon : Rat
  grid_spacing : Rat := 0.005
deriving DecidableEq, Repr

/-- Model of `np.arange(start, stop, step)` over exact rationals: the values
`start + i*step` for `0 ≤ i < ⌈(stop - start) / step⌉`. -/
def arange (start stop step : Rat) : List Rat :=
  (List.range (⌈(stop - start) / step⌉).toNat).map (fun i : Nat => start + (i : Rat) * step)

/-- Method `CityBounds.get_grid_points`: the list comprehension
`[(lat, lon) for lat in lats for lon in lons]` over the two `arange`s. -/
def CityBounds.get_grid_points (b : CityBounds) : List (Rat × Rat) :=
  (arange b.min_lat b.max_lat b.grid_spacing).flatMap (fun lat =>
    (arange b.min_lon b.max_lon b.grid_spacing).map (fun lon => (lat, lon)))

/-- Python dataclass `CityDemographics`: expected demographic ranges. -/
structure CityDemographics where
  typical_population_range : PyPair
  typical_income_range : PyPair
  typical_age_range : PyPair
  population_density_factor : Rat := 1.0
deriving DecidableEq, Repr

/-- Python dataclass `CityMarketData`: market data and API configuration. -/
structure CityMarketData where
  state_code : String
  county_name : String
  city_name_variations : List String
  rental_api_city_name : String
  major_universities : List String
  major_employers : List String
deriving DecidableEq, Repr

/-- Python dataclass `CityCompetitorData`: competitor search terms and
market factors. -/
structure CityCompetitorData where
  primary_competitor : String
  competitor_search_terms : List String
  market_saturation_factor : Rat
  fast_casual_preference_score : Rat
deriving DecidableEq, Repr

/-- Python dataclass `CityConfiguration`: complete city configuration. -/
structure CityConfiguration where
  city_id : String
  display_name : String
  bounds : CityBounds
  demographics : CityDemographics
  market_data : CityMarketData
  competitor_data : CityCompetitorData
deriving DecidableEq, Repr

/-- Python-dict read: value at the first occurrence of key `k`. -/
def dictGet {α : Type} : List (String × α) → String → Option α
  | [], _ => none
  | (k', v) :: rest, k => if k' = k then some v else dictGet rest k

/-- Python-dict write `d[k] = v`: replace in place if the key is present,
otherwise append at the end (insertion order). -/
def dictSet {α : Type} : List (String × α) → String → α → List (String × α)
  | [], k, v => [(k, v)]
  | (k', v') :: rest, k, v =>
      if k' = k then (k, v) :: rest else (k', v') :: dictSet rest k v

/-- Python-dict delete `del d[k]`: remove the entry with key `k`. -/
def dictDel {α : Type} : List (String × α) → String → List (String × α)
  | [], _ => []
  | (k', v') :: rest, k =>
      if k' = k then rest else (k', v') :: dictDel rest k

/-! ### YAML node trees

Mutual inductives (with their own list types, so that every function on
them is plainly structurally recursive and kernel-computable). -/

mutual
/-- A YAML node as constructed by PyYAML: scalar string, scalar number,
null, sequence, python/tuple-tagged sequence, or mapping. -/
inductive Yaml where
  | str (s : String)
  | num (q : Rat)
  | null
  | seq (items : YamlSeq)
  | pytuple (items : YamlSeq)
  | map (entries : YamlMap)

/-- A list of YAML nodes (sequence items). -/
inductive YamlSeq where
  | nil
  | cons (hd : Yaml) (tl : YamlSeq)

/-- An insertion-ordered YAML mapping with string keys. -/
inductive YamlMap where
  | nil
  | cons (key : String) (val : Yaml) (tl : YamlMap)
end

/-- Build a `YamlSeq` from a Lean list. -/
def YamlSeq.ofList : List Yaml → YamlSeq
  | [] => .nil
  | y :: ys => .cons y (YamlSeq.ofList ys)

/-- Build a `YamlMap` from a Lean association list. -/
def YamlMap.ofList : List (String × Yaml) → YamlMap
  | [] => .nil
  | (k, v) :: rest => .cons k v (YamlMap.ofList rest)

/-- Keys of a YAML mapping, in order. -/
def YamlMap.keys : YamlMap → List String
  | .nil => []
  | .cons k _ tl => k :: tl.keys

/-- Value at the first occurrence of key `k` in a YAML mapping. -/
def YamlMap.get : YamlMap → String → Option Yaml
  | .nil, _ => none
  | .cons k' v tl, k => if k' = k then some v else tl.get k

mutual
/-- Whether a YAML node contains a `tag:yaml.org,2002:python/tuple` tag
anywhere; `yaml.safe_load` raises `ConstructorError` exactly on documents
containing such a tag. -/
def Yaml.hasPyTuple : Yaml → Bool
  | .str _ => false
  | .num _ => false
  | .null => false
  | .seq items => items.hasPyTuple
  | .pytuple _ => true
  | .map entries => entries.hasPyTuple

/-- `Yaml.hasPyTuple` over the items of a sequence. -/
def YamlSeq.hasPyTuple : YamlSeq → Bool
  | .nil => false
  | .cons y tl => y.hasPyTuple || tl.hasPyTuple

/-- `Yaml.hasPyTuple` over the values of a mapping. -/
def YamlMap.hasPyTuple : YamlMap → Bool
  | .nil => false
  | .cons _ v tl => v.hasPyTuple || tl.hasPyTuple
end

/-- A YAML sequence of numbers. -/
def Yaml.numSeq (l : List Rat) : Yaml := .seq (YamlSeq.ofList (l.map .num))

/-- A YAML sequence of strings. -/
def Yaml.strSeq (l : List String) : Yaml := .seq (YamlSeq.ofList (l.map .str))

/-! ### Serialization (`asdict` composed with `yaml.dump`)

`CityConfiguration.to_dict` is `dataclasses.asdict`: a nested dict of the
fields in declaration order; Python tuples stay tuples, and the default
`Dumper` then writes them as python/tuple-tagged sequences. -/

/-- Serialization of a tuple-or-list field: `yaml.dump` writes a Python
tuple with the python/tuple tag and a list as a plain sequence. -/
def PyPair.toYaml : PyPair → Yaml
  | .tup a b => .pytuple (.ofList [.num a, .num b])
  | .lst l => Yaml.numSeq l

/-- `asdict` image of a `CityBounds`. -/
def CityBounds.toYaml (b : CityBounds) : Yaml :=
  .map (.ofList [("min_lat", .num b.min_lat), ("max_lat", .num b.max_lat),
    ("min_lon", .num b.min_lon), ("max_lon", .num b.max_lon),
    ("center_lat", .num b.center_lat), ("center_lon", .num b.center_lon),
    ("grid_spacing", .num b.grid_spacing)])

/-- `asdict` image of a `CityDemographics`. -/
def CityDemographics.toYaml (d : CityDemographics) : Yaml :=
  .map (.ofList [("typical_population_range", d.typical_population_range.toYaml),
    ("typical_income_range", d.typical_income_range.toYaml),
    ("typical_age_range", d.typical_age_range.toYaml),
    ("population_density_factor", .num d.population_density_factor)])

/-- `asdict` image of a `CityMarketData`. -/
def CityMarketData.toYaml (m : CityMarketData) : Yaml :=
  .map (.ofList [("state_code", .str m.state_code),
    ("county_name", .str m.county_name),
    ("city_name_variations", Yaml.strSeq m.city_name_variations),
    ("rental_api_city_name", .str m.rental_api_city_name),
    ("major_universities", Yaml.strSeq m.major_universities),
    ("major_employers", Yaml.strSeq m.major_employers)])

/-- `asdict` image of a `CityCompetitorData`. -/
def CityCompetitorData.toYaml (c : CityCompetitorData) : Yaml :=
  .map (.ofList [("primary_competitor", .str c.primary_competitor),
    ("competitor_search_terms", Yaml.strSeq c.competitor_search_terms),
    ("market_saturation_factor", .num c.market_saturation_factor),
    ("fast_casual_preference_score", .num c.fast_casual_preference_score)])

/-- Method `CityConfiguration.to_dict`: `dataclasses.asdict(self)`. -/
def CityConfiguration.to_dict (c : CityConfiguration) : Yaml :=
  .map (.ofList [("city_id", .str c.city_id),
    ("display_name", .str c.display_name),
    ("bounds", c.bounds.toYaml),
    ("demographics", c.demographics.toYaml),
    ("market_data", c.market_data.toYaml),
    ("competitor_data", c.competitor_data.toYaml)])

/-! ### Deserialization (`yaml.safe_load` composed with `from_dict`)

A dataclass call `C(**d)` raises on a missing required key or an
unexpected key; fields with defaults may be absent. -/

/-- Read a number-valued node. -/
def parseNum : Yaml → Option Rat
  | .num q => some q
  | _ => none

/-- Read a string-valued node. -/
def parseStr : Yaml → Option String
  | .str s => some s
  | _ => none

/-- Read a sequence of numbers. -/
def parseNumList : YamlSeq → Option (List Rat)
  | .nil => some []
  | .cons y tl =>
      match parseNum y, parseNumList tl with
      | some q, some l => some (q :: l)
      | _, _ => none

/-- Read a sequence of strings. -/
def parseStrList : YamlSeq → Option (List String)
  | .nil => some []
  | .cons y tl =>
      match parseStr y, parseStrList tl with
      | some s, some l => some (s :: l)
      | _, _ => none

/-- Read a node holding a list of strings. -/
def parseStrListY : Yaml → Option (List String)
  | .seq s => parseStrList s
  | _ => none

/-- Read a tuple-or-list field as loaded from a file: `yaml.safe_load`
turns a plain sequence into a Python list (a python/tuple tag never
reaches `from_dict`, since `safe_load` raises on it first). -/
def parsePair : Yaml → Option PyPair
  | .seq s => (parseNumList s).map .lst
  | _ => none

/-- Number at key `k` of a mapping. -/
def getNum (m : YamlMap) (k : String) : Option Rat := (m.get k).bind parseNum

/-- String at key `k` of a mapping. -/
def getStr (m : YamlMap) (k : String) : Option String := (m.get k).bind parseStr

/-- String list at key `k` of a mapping. -/
def getStrList (m : YamlMap) (k : String) : Option (List String) :=
  (m.get k).bind parseStrListY

/-- Tuple-or-list field at key `k` of a mapping. -/
def getPair (m : YamlMap) (k : String) : Option PyPair := (m.get k).bind parsePair

/-- Keyword names accepted by `CityBounds(**d)`. -/
def boundsKeys : List String :=
  ["min_lat", "max_lat", "min_lon", "max_lon", "center_lat", "center_lon",
   "grid_spacing"]

/-- `CityBounds(**d)`: all six coordinates required, `grid_spacing`
optional with default `0.005`, no unexpected keys. -/
def parseBounds : Yaml → Option CityBounds
  | .map m =>
      if m.keys.all (fun k => boundsKeys.contains k) then
        match getNum m "min_lat", getNum m "max_lat", getNum m "min_lon",
              getNum m "max_lon", getNum m "center_lat", getNum m "center_lon" with
        | some a, some b, some c, some d, some e, some f =>
            match m.get "grid_spacing" with
            | none => some ⟨a, b, c, d, e, f, 0.005⟩
            | some g => (parseNum g).map fun gs => ⟨a, b, c, d, e, f, gs⟩
        | _, _, _, _, _, _ => none
      else none
  | _ => none

/-- Keyword names accepted by `CityDemographics(**d)`. -/
def demographicsKeys : List String :=
  ["typical_population_range", "typical_income_range", "typical_age_range",
   "population_density_factor"]

/-- `CityDemographics(**d)`: the three ranges required,
`population_density_factor` optional with default `1.0`. -/
def parseDemographics : Yaml → Option CityDemographics
  | .map m =>
      if m.keys.all (fun k => demographicsKeys.contains k) then
        match getPair m "typical_population_range",
              getPair m "typical_income_range",
              getPair m "typical_age_range" with
        | some p, some i, some a =>
            match m.get "population_density_factor" with
            | none => some ⟨p, i, a, 1.0⟩
            | some d => (parseNum d).map fun df => ⟨p, i, a, df⟩
        | _, _, _ => none
      else none
  | _ => none

/-- Keyword names accepted by `CityMarketData(**d)`. -/
def marketDataKeys : List String :=
  ["state_code", "county_name", "city_name_variations", "rental_api_city_name",
   "major_universities", "major_employers"]

/-- `CityMarketData(**d)`: all six fields required. -/
def parseMarketData : Yaml → Option CityMarketData
  | .map m =>
      if m.keys.all (fun k => marketDataKeys.contains k) then
        match getStr m "state_code", getStr m "county_name",
              getStrList m "city_name_variations", getStr m "rental_api_city_name",
              getStrList m "major_universities", getStrList m "major_employers" with
        | some sc, some cn, some cv, some rn, some mu, some me =>
            some ⟨sc, cn, cv, rn, mu, me⟩
        | _, _, _, _, _, _ => none
      else none
  | _ => none

/-- Keyword names accepted by `CityCompetitorData(**d)`. -/
def competitorDataKeys : List String :=
  ["primary_competitor", "competitor_search_terms", "market_saturation_factor",
   "fast_casual_preference_score"]

/-- `CityCompetitorData(**d)`: all four fields required. -/
def parseCompetitorData : Yaml → Option CityCompetitorData
  | .map m =>
      if m.keys.all (fun k => competitorDataKeys.contains k) then
        match getStr m "primary_competitor",
              getStrList m "competitor_search_terms",
              getNum m "market_saturation_factor",
              getNum m "fast_casual_preference_score" with
        | some pc, some ts, some ms, some fc => some ⟨pc, ts, ms, fc⟩
        | _, _, _, _ => none
      else none
  | _ => none

/-- Classmethod `CityConfiguration.from_dict`: reads the six components
from the given mapping (`data['city_id']`, …); any missing key or
malformed component raises, modelled by `none`.  Unexpected top-level keys
are ignored (plain dict indexing, not `**kwargs`). -/
def CityConfiguration.from_dict (y : Yaml) : Option CityConfiguration :=
  match y with
  | .map m =>
      match getStr m "city_id", getStr m "display_name",
            (m.get "bounds").bind parseBounds,
            (m.get "demographics").bind parseDemographics,
            (m.get "market_data").bind parseMarketData,
            (m.get "competitor_data").bind parseCompetitorData with
      | some cid, some dn, some b, some dg, some md, some cd =>
          some ⟨cid, dn, b, dg, md, cd⟩
      | _, _, _, _, _, _ => none
  | _ => none

/-! ### The manager -/

/-- In-memory state of a `CityConfigManager`: the `configs` dict
(insertion-ordered, unique keys) and the `current_city` pointer
(`None` = unset). -/
structure CityConfigManager where
  configs : List (String × CityConfiguration)
  current_city : Option String
deriving DecidableEq, Repr

/-- State of the backing `config_file`: absent, present but not a
well-formed YAML document (or otherwise unreadable), or a document with
node tree `y`. -/
inductive FileState where
  | missing
  | garbage
  | doc (y : Yaml)

/-- The dict built by `save_configs` before dumping:
`{'current_city': …, 'cities': {city_id: config.to_dict(), …}}`. -/
def save_data (s : CityConfigManager) : Yaml :=
  .map (.ofList
    [("current_city", match s.current_city with | none => .null | some c => .str c),
     ("cities", .map (.ofList (s.configs.map (fun e => (e.1, e.2.to_dict)))))])

/-- Method `CityConfigManager.save_configs`: overwrite the backing file
with the dump of `save_data` (no exception handling around the write). -/
def CityConfigManager.save_configs (s : CityConfigManager) : FileState :=
  .doc (save_data s)

/-- Fallible variant of `save_configs` making the `open(self.config_file,
'w')` failure mode explicit: if the destination is not writable the
I/O error propagates (there is no `try`/`except` in `save_configs`),
otherwise the file is overwritten with the dump of `save_data`. -/
def CityConfigManager.save_configs_write (writable : Bool) (s : CityConfigManager) :
    Except String FileState :=
  if writable then .ok (.doc (save_data s)) else .error "IOError"

/-- The loop `for city_id, city_data in data['cities'].items(): …` of
`load_configs`: build the configs dict in file order; any `from_dict`
failure aborts the whole load. -/
def extractCities : YamlMap → Option (List (String × CityConfiguration))
  | .nil => some []
  | .cons k v tl =>
      match CityConfiguration.from_dict v, extractCities tl with
      | some c, some rest => some ((k, c) :: rest)
      | _, _ => none

/-- The body of the `try:` block of `load_configs` on a parsed document:
`data['cities']` must be a mapping of loadable configurations, and
`data.get('current_city')` is `None` or a string. -/
def extractStore (y : Yaml) : Option CityConfigManager :=
  match y with
  | .map m =>
      match m.get "cities" with
      | some (.map cm) =>
          match extractCities cm with
          | some cfgs =>
              match m.get "current_city" with
              | none => some ⟨cfgs, none⟩
              | some .null => some ⟨cfgs, none⟩
              | some (.str s) => some ⟨cfgs, some s⟩
              | some _ => none
          | none => none
      | _ => none
  | _ => none

/-- Default configuration for Grand Forks, ND (`_create_default_configs`). -/
def grand_forks : CityConfiguration :=
  { city_id := "grand_forks_nd"
    display_name := "Grand Forks, ND"
    bounds :=
      { min_lat := 47.85, max_lat := 47.95
        min_lon := -97.15, max_lon := -97.0
        center_lat := 47.9, center_lon := -97.075 }
    demographics :=
      { typical_population_range := .tup 3000 12000
        typical_income_range := .tup 35000 70000
        typical_age_range := .tup 22 45
        population_density_factor := 1.0 }
    market_data :=
      { state_code := "ND"
        county_name := "Grand Forks County"
        city_name_variations := ["Grand Forks", "Grand Forks ND"]
        rental_api_city_name := "Grand Forks"
        major_universities := ["University of North Dakota"]
        major_employers := ["University of North Dakota", "Altru Health System"] }
    competitor_data :=
      { primary_competitor := "chick-fil-a"
        competitor_search_terms :=
          ["mcdonalds", "kfc", "taco bell", "burger king", "subway", "wendys",
           "popeyes"]
        market_saturation_factor := 0.7
        fast_casual_preference_score := 0.8 } }

/-- Default configuration for Fargo, ND (`_create_default_configs`). -/
def fargo : CityConfiguration :=
  { city_id := "fargo_nd"
    display_name := "Fargo, ND"
    bounds :=
      { min_lat := 46.8, max_lat := 46.95
        min_lon := -96.9, max_lon := -96.7
        center_lat := 46.875, center_lon := -96.8 }
    demographics :=
      { typical_population_range := .tup 5000 18000
        typical_income_range := .tup 40000 80000
        typical_age_range := .tup 25 40
        population_density_factor := 1.2 }
    market_data :=
      { state_code := "ND"
        county_name := "Cass County"
        city_name_variations := ["Fargo", "Fargo ND"]
        rental_api_city_name := "Fargo"
        major_universities := ["North Dakota State University"]
        major_employers := ["Sanford Health", "Microsoft", "North Dakota State University"] }
    competitor_data :=
      { primary_competitor := "chick-fil-a"
        competitor_search_terms :=
          ["mcdonalds", "kfc", "taco bell", "burger king", "subway", "wendys",
           "popeyes"]
        market_saturation_factor := 0.9
        fast_casual_preference_score := 0.85 } }

/-- Default configuration for Bismarck, ND (`_create_default_configs`). -/
def bismarck : CityConfiguration :=
  { city_id := "bismarck_nd"
    display_name := "Bismarck, ND"
    bounds :=
      { min_lat := 46.75, max_lat := 46.85
        min_lon := -100.85, max_lon := -100.7
        center_lat := 46.8, center_lon := -100.775 }
    demographics :=
      { typical_population_range := .tup 4000 15000
        typical_income_range := .tup 45000 85000
        typical_age_range := .tup 28 45
        population_density_factor := 1.1 }
    market_data :=
      { state_code := "ND"
        county_name := "Burleigh County"
        city_name_variations := ["Bismarck", "Bismarck ND"]
        rental_api_city_name := "Bismarck"
        major_universities := ["University of Mary", "Bismarck State College"]
        major_employers := ["State of North Dakota", "Sanford Health", "Basin Electric"] }
    competitor_data :=
      { primary_competitor := "chick-fil-a"
        competitor_search_terms :=
          ["mcdonalds", "kfc", "taco bell", "burger king", "subway", "wendys",
           "popeyes"]
        market_saturation_factor := 0.8
        fast_casual_preference_score := 0.75 } }

/-- The in-memory state installed by `_create_default_configs`: the three
seeded configurations, `current_city = "grand_forks_nd"`. -/
def defaultState : CityConfigManager :=
  { configs :=
      [("grand_forks_nd", grand_forks), ("fargo_nd", fargo), ("bismarck_nd", bismarck)]
    current_city := some "grand_forks_nd" }

/-- Method `CityConfigManager.load_configs` run on a fresh instance
(`configs = {}`, `current_city = None`, as in `__init__`), returning the
resulting in-memory state and the resulting backing-file state.  A missing
file, an unreadable file, a python/tuple tag (rejected by `safe_load`), or
any failure inside the `try:` block falls back to
`_create_default_configs`, which installs `defaultState` and saves it. -/
def CityConfigManager.load_configs : FileState → CityConfigManager × FileState
  | .missing => (defaultState, .doc (save_data defaultState))
  | .garbage => (defaultState, .doc (save_data defaultState))
  | .doc y =>
      if y.hasPyTuple then (defaultState, .doc (save_data defaultState))
      else
        match extractStore y with
        | some s => (s, .doc y)
        | none => (defaultState, .doc (save_data defaultState))

/-- Result of one mutating manager method: the returned value, the new
in-memory state, and the document written by `save_configs` (`none` when
the method did not save). -/
structure OpResult (α : Type) where
  ret : α
  state : CityConfigManager
  wrote : Option Yaml

/-- Method `CityConfigManager.set_current_city`. -/
def CityConfigManager.set_current_city (s : CityConfigManager) (city_id : String) :
    OpResult Bool :=
  if (dictGet s.configs city_id).isSome then
    let s' : CityConfigManager := { s with current_city := some city_id }
    ⟨true, s', some (save_data s')⟩
  else
    ⟨false, s, none⟩

/-- Method `CityConfigManager.get_current_config` (note the Python
truthiness test `if self.current_city and …`: the empty string is falsy). -/
def CityConfigManager.get_current_config (s : CityConfigManager) :
    Option CityConfiguration :=
  match s.current_city with
  | some c => if c = "" then none else dictGet s.configs c
  | none => none

/-- Method `CityConfigManager.get_config`. -/
def CityConfigManager.get_config (s : CityConfigManager) (city_id : String) :
    Option CityConfiguration :=
  dictGet s.configs city_id

/-- Method `CityConfigManager.list_cities`: `list(self.configs.keys())`. -/
def CityConfigManager.list_cities (s : CityConfigManager) : List String :=
  s.configs.map Prod.fst

/-- Method `CityConfigManager.add_city`. -/
def CityConfigManager.add_city (s : CityConfigManager) (config : CityConfiguration) :
    OpResult Unit :=
  let s' : CityConfigManager :=
    { s with configs := dictSet s.configs config.city_id config }
  ⟨(), s', some (save_data s')⟩

/-- Method `CityConfigManager.remove_city`: delete if present; if the
removed id was `current_city`, reassign it to
`next(iter(self.configs.keys()), None)` — the first remaining key. -/
def CityConfigManager.remove_city (s : CityConfigManager) (city_id : String) :
    OpResult Bool :=
  if (dictGet s.configs city_id).isSome then
    let configs' := dictDel s.configs city_id
    let cur' :=
      if s.current_city = some city_id then (configs'.map Prod.fst).head?
      else s.current_city
    let s' : CityConfigManager := ⟨configs', cur'⟩
    ⟨true, s', some (save_data s')⟩
  else
    ⟨false, s, none⟩

/-! ### Helper lemmas about the Python-dict operations -/

/-- `dictGet` misses exactly the keys that are not in the dict. -/
theorem dictGet_eq_none_iff {α : Type} (d : List (String × α)) (k : String) :
    dictGet d k = none ↔ k ∉ d.map Prod.fst := by
  induction d with
  | nil => simp [dictGet]
  | cons e rest ih =>
    obtain ⟨k', v⟩ := e
    by_cases h : k' = k
    · subst h
      simp [dictGet]
    · simp [dictGet, h, ih, Ne.symm h]

/-- After `d[k] = v`, reading `k` yields `v`. -/
theorem dictGet_dictSet_self {α : Type} (d : List (String × α)) (k : String) (v : α) :
    dictGet (dictSet d k v) k = some v := by
  induction d with
  | nil => simp [dictSet, dictGet]
  | cons e rest ih =>
    obtain ⟨k', v'⟩ := e
    by_cases h : k' = k <;> simp [dictSet, dictGet, h, ih]

/-- `d[k] = v` keeps the key list if `k` is present and appends `k` otherwise. -/
theorem map_fst_dictSet {α : Type} (d : List (String × α)) (k : String) (v : α) :
    (dictSet d k v).map Prod.fst =
      if k ∈ d.map Prod.fst then d.map Prod.fst else d.map Prod.fst ++ [k] := by
  induction d with
  | nil => simp [dictSet]
  | cons e rest ih =>
    obtain ⟨k', v'⟩ := e
    by_cases h : k' = k
    · subst h
      simp [dictSet]
    · have hkk : ¬ k = k' := fun hh => h hh.symm
      simp only [dictSet, if_neg h, List.map_cons, List.mem_cons, ih]
      rcases Decidable.em (k ∈ List.map Prod.fst rest) with hm | hm
      · simp [hm]
      · simp [hm, hkk]

/-- `d[k] = v` preserves key uniqueness. -/
theorem nodup_map_fst_dictSet {α : Type} (d : List (String × α)) (k : String) (v : α)
    (hnd : (d.map Prod.fst).Nodup) : ((dictSet d k v).map Prod.fst).Nodup := by
  rw [map_fst_dictSet]
  split_ifs with h
  · exact hnd
  · exact hnd.append (List.nodup_singleton k) (by simp [h])

/-- After `d[k] = v` on a dict with unique keys, `k` occurs exactly once. -/
theorem count_map_fst_dictSet {α : Type} (d : List (String × α)) (k : String) (v : α)
    (hnd : (d.map Prod.fst).Nodup) : ((dictSet d k v).map Prod.fst).count k = 1 := by
  rw [map_fst_dictSet]
  split_ifs with h
  · exact List.count_eq_one_of_mem hnd h
  · rw [List.count_append]
    simp [List.count_eq_zero_of_not_mem h]

/-- `del d[k]` erases the key from the key list. -/
theorem map_fst_dictDel {α : Type} (d : List (String × α)) (k : String) :
    (dictDel d k).map Prod.fst = (d.map Prod.fst).erase k := by
  induction d with
  | nil => simp [dictDel]
  | cons e rest ih =>
    obtain ⟨k', v'⟩ := e
    by_cases h : k' = k
    · subst h
      simp [dictDel, List.erase_cons_head]
    · simp [dictDel, h, ih, List.erase_cons_tail, Ne.symm h]

/-! ### Helper lemmas about `arange` and the grid -/

/-- Membership in `arange`: exactly the fixed-step values from `start`
(inclusive) below `stop` (exclusive). -/
theorem mem_arange (start stop step : Rat) (hstep : 0 < step) (x : Rat) :
    x ∈ arange start stop step ↔ ∃ i : ℕ, x = start + i * step ∧ x < stop := by
  unfold arange
  constructor
  · intro hx
    obtain ⟨i, hi, hfx⟩ := List.mem_map.mp hx
    have hi' := List.mem_range.mp hi
    rw [Int.lt_toNat] at hi'
    have h2 := Int.lt_ceil.mp hi'
    push_cast at h2
    rw [lt_div_iff₀ hstep] at h2
    exact ⟨i, hfx.symm, by rw [← hfx]; linarith⟩
  · rintro ⟨i, rfl, hx⟩
    refine List.mem_map.mpr ⟨i, List.mem_range.mpr ?_, rfl⟩
    rw [Int.lt_toNat, Int.lt_ceil]
    push_cast
    rw [lt_div_iff₀ hstep]
    linarith

/-- The `arange` of the concrete bounds of the grid-generation test. -/
theorem arange_concrete : arange 0 0.02 0.01 = [0, 0.01] := by
  have hceil : ⌈((0.02 : Rat) - 0) / 0.01⌉ = 2 := by norm_num
  unfold arange
  rw [hceil]
  show (List.range 2).map _ = _
  rw [show List.range 2 = [0, 1] from rfl]
  simp only [List.map_cons, List.map_nil]
  norm_num

/-- Membership in `get_grid_points`: the cross product of the fixed-step
latitude and longitude sequences, min inclusive, max exclusive. -/
theorem mem_get_grid_points (b : CityBounds) (hs : 0 < b.grid_spacing) (p : Rat × Rat) :
    p ∈ b.get_grid_points ↔
      ∃ i j : ℕ, p.1 = b.min_lat + i * b.grid_spacing ∧
        p.2 = b.min_lon + j * b.grid_spacing ∧ p.1 < b.max_lat ∧ p.2 < b.max_lon := by
  unfold CityBounds.get_grid_points
  rw [List.mem_flatMap]
  constructor
  · rintro ⟨lat, hlat, hp⟩
    obtain ⟨lon, hlon, rfl⟩ := List.mem_map.mp hp
    rw [mem_arange _ _ _ hs] at hlat hlon
    obtain ⟨i, rfl, hi⟩ := hlat
    obtain ⟨j, rfl, hj⟩ := hlon
    exact ⟨i, j, rfl, rfl, hi, hj⟩
  · rintro ⟨i, j, h1, h2, h3, h4⟩
    refine ⟨p.1, ?_, List.mem_map.mpr ⟨p.2, ?_, rfl⟩⟩
    · rw [mem_arange _ _ _ hs]
      exact ⟨i, h1, h3⟩
    · rw [mem_arange _ _ _ hs]
      exact ⟨j, h2, h4⟩

/-- Unfolding of `remove_city` on a present key. -/
theorem remove_city_present (s : CityConfigManager) (city_id : String)
    (h : (dictGet s.configs city_id).isSome = true) :
    s.remove_city city_id =
      ⟨true,
       ⟨dictDel s.configs city_id,
        if s.current_city = some city_id
        then ((dictDel s.configs city_id).map Prod.fst).head?
        else s.current_city⟩,
       some (save_data
        ⟨dictDel s.configs city_id,
         if s.current_city = some city_id
         then ((dictDel s.configs city_id).map Prod.fst).head?
         else s.current_city⟩)⟩ := by
  unfold CityConfigManager.remove_city
  rw [h]
  rfl

/-- Unfolding of `remove_city` on an absent key. -/
theorem remove_city_absent (s : CityConfigManager) (city_id : String)
    (h : (dictGet s.configs city_id).isSome = false) :
    s.remove_city city_id = ⟨false, s, none⟩ := by
  unfold CityConfigManager.remove_city
  rw [h]
  rfl

/-! ### The claims -/

/-- C1: the round-trip property fails on the code.  At the valid store
state consisting of the three seeded default configurations with
`current_city = "fargo_nd"` (reachable by `load()` on a fresh install
followed by `set_current("fargo_nd")`), `save()` writes python/tuple tags
for the tuple-valued demographics ranges, so a subsequent `load()` on a
fresh instance has `safe_load` fail and re-seeds the defaults: the loaded
store has `current_city = "grand_forks_nd"`, not `"fargo_nd"`. -/
theorem save_load_roundtrip_failure :
    (save_data { defaultState with current_city := some "fargo_nd" }).hasPyTuple = true ∧
    CityConfigManager.load_configs
        (CityConfigManager.save_configs
          { defaultState with current_city := some "fargo_nd" }) =
      (defaultState, .doc (save_data defaultState)) ∧
    (CityConfigManager.load_configs
        (CityConfigManager.save_configs
          { defaultState with current_city := some "fargo_nd" })).1.current_city ≠
      ({ defaultState with current_city := some "fargo_nd" } : CityConfigManager).current_city := by
  refine ⟨rfl, rfl, by decide⟩

/-- C2: for a missing file, unreadable/corrupt content (including a
python/tuple-tagged document rejected by `safe_load`), or a parseable
document that does not deserialize (e.g. records missing required
fields), `load_configs` does not raise: it installs the three seeded
defaults, leaves `current_city` on one of the three seeded keys (a key of
the resulting mapping), and persists the seeded store. -/
theorem load_configs_bootstrap (file : FileState)
    (h : file = .missing ∨ file = .garbage ∨
      ∃ y, file = .doc y ∧ (y.hasPyTuple = true ∨ extractStore y = none)) :
    CityConfigManager.load_configs file = (defaultState, .doc (save_data defaultState)) ∧
    (CityConfigManager.load_configs file).1.list_cities ≠ [] ∧
    ∃ c, (CityConfigManager.load_configs file).1.current_city = some c ∧
      c ∈ ["grand_forks_nd", "fargo_nd", "bismarck_nd"] ∧
      c ∈ (CityConfigManager.load_configs file).1.list_cities := by
  have hload : CityConfigManager.load_configs file =
      (defaultState, .doc (save_data defaultState)) := by
    rcases h with rfl | rfl | ⟨y, rfl, hy | hy⟩
    · rfl
    · rfl
    · simp [CityConfigManager.load_configs, hy]
    · cases hpt : y.hasPyTuple
      · simp [CityConfigManager.load_configs, hpt, hy]
      · simp [CityConfigManager.load_configs, hpt]
  refine ⟨hload, ?_, ?_⟩
  · rw [hload]
    decide
  · rw [hload]
    exact ⟨"grand_forks_nd", rfl, by decide, by decide⟩

/-- C2 witness: the missing-file case, concretely. -/
theorem load_configs_bootstrap_witness :
    (CityConfigManager.load_configs .missing).1.list_cities ≠ [] ∧
    ∃ c, (CityConfigManager.load_configs .missing).1.current_city = some c ∧
      c ∈ ["grand_forks_nd", "fargo_nd", "bismarck_nd"] := by
  have h := load_configs_bootstrap .missing (Or.inl rfl)
  exact ⟨h.2.1, h.2.2.imp (fun c hc => ⟨hc.1, hc.2.1⟩)⟩

/-- A parseable document with an empty `cities` mapping. -/
def emptyCitiesDoc : Yaml :=
  .map (.ofList [("current_city", .null), ("cities", .map .nil)])

/-- C3 counterexample: a parseable backing file whose `cities` mapping is
empty loads successfully (no exception, no default-seeding), leaving a
store with `list_cities() = []` —`load()` does not guarantee a non-empty
store for every backing-file content. -/
theorem load_configs_invariant_counterexample :
    extractStore emptyCitiesDoc = some ⟨[], none⟩ ∧
    (CityConfigManager.load_configs (.doc emptyCitiesDoc)).1.list_cities = [] := ⟨rfl, rfl⟩

/-- C3 amended: after `load()`, the store invariant (non-empty
`list_cities()`, and `current_city` a present key when set) holds provided
that, whenever the file parses and deserializes successfully, its own
content satisfies the invariant; for missing, corrupt, or undeserializable
content the invariant holds unconditionally via default-seeding. -/
theorem load_configs_invariant_amended (file : FileState)
    (h : ∀ y s, file = .doc y → extractStore y = some s →
      s.configs ≠ [] ∧ ∀ c, s.current_city = some c → c ∈ s.list_cities) :
    (CityConfigManager.load_configs file).1.list_cities ≠ [] ∧
    ∀ c, (CityConfigManager.load_configs file).1.current_city = some c →
      c ∈ (CityConfigManager.load_configs file).1.list_cities := by
  have hdef : defaultState.list_cities ≠ [] ∧
      ∀ c, defaultState.current_city = some c → c ∈ defaultState.list_cities := by
    refine ⟨by decide, ?_⟩
    intro c hc
    cases hc
    decide
  rcases file with _ | _ | y
  · exact hdef
  · exact hdef
  · cases hpt : y.hasPyTuple
    · cases hex : extractStore y with
      | none =>
          simp only [CityConfigManager.load_configs, hpt, Bool.false_eq_true, if_false, hex]
          exact hdef
      | some s =>
          have hs := h y s rfl hex
          simp only [CityConfigManager.load_configs, hpt, Bool.false_eq_true, if_false, hex]
          refine ⟨?_, hs.2⟩
          intro hmap
          exact hs.1 (List.map_eq_nil_iff.mp hmap)
    · simp only [CityConfigManager.load_configs, hpt, if_true]
      exact hdef

/-- C3 amended witness: the missing-file case, concretely. -/
theorem load_configs_invariant_amended_witness :
    (CityConfigManager.load_configs .missing).1.list_cities ≠ [] := by
  have h := load_configs_invariant_amended .missing (fun y s hy => by cases hy)
  exact h.1

/-- C4: `set_current_city` on an unknown id returns `False` and performs no
mutation and no write at all; on a known id it returns `True`, sets
`current_city`, and saves the updated store. -/
theorem set_current_city_guard (s : CityConfigManager) (city_id : String) :
    ((dictGet s.configs city_id).isSome = false →
      s.set_current_city city_id = ⟨false, s, none⟩) ∧
    ((dictGet s.configs city_id).isSome = true →
      (s.set_current_city city_id).ret = true ∧
      (s.set_current_city city_id).state =
        { s with current_city := some city_id } ∧
      (s.set_current_city city_id).wrote =
        some (save_data { s with current_city := some city_id })) := by
  constructor
  · intro h
    unfold CityConfigManager.set_current_city
    rw [h]
    rfl
  · intro h
    unfold CityConfigManager.set_current_city
    rw [h]
    exact ⟨rfl, rfl, rfl⟩

/-- C4 witness: both branches at concrete inputs. -/
theorem set_current_city_guard_witness :
    CityConfigManager.set_current_city ⟨[], none⟩ "x" = ⟨false, ⟨[], none⟩, none⟩ ∧
    (defaultState.set_current_city "fargo_nd").ret = true ∧
    (defaultState.set_current_city "fargo_nd").state.current_city = some "fargo_nd" := by
  refine ⟨(set_current_city_guard ⟨[], none⟩ "x").1 rfl, ?_⟩
  have h := (set_current_city_guard defaultState "fargo_nd").2 rfl
  exact ⟨h.1, by rw [h.2.1]⟩

/-- C5: `remove_city` returns whether a deletion occurred; on a valid
store (`current_city`, if set, is a present key), removing the current
city leaves `current_city` on some key still present when entries remain,
and unset when the store becomes empty. -/
theorem remove_city_reassignment (s : CityConfigManager) (city_id : String)
    (hv : ∀ c, s.current_city = some c → c ∈ s.list_cities) :
    ((s.remove_city city_id).ret = (dictGet s.configs city_id).isSome) ∧
    ((dictGet s.configs city_id).isSome = true →
      (s.current_city = some city_id →
        (s.remove_city city_id).state.configs ≠ [] →
        ∃ c, (s.remove_city city_id).state.current_city = some c ∧
          c ∈ (s.remove_city city_id).state.list_cities) ∧
      ((s.remove_city city_id).state.configs = [] →
        (s.remove_city city_id).state.current_city = none)) := by
  cases hp : (dictGet s.configs city_id).isSome
  · rw [remove_city_absent s city_id hp]
    exact ⟨rfl, fun h => absurd h Bool.false_ne_true⟩
  · rw [remove_city_present s city_id hp]
    refine ⟨rfl, fun _ => ⟨?_, ?_⟩⟩
    · intro hcur hne
      dsimp only at hne ⊢
      rw [if_pos hcur]
      have hl : (dictDel s.configs city_id).map Prod.fst ≠ [] :=
        fun hh => hne (List.map_eq_nil_iff.mp hh)
      refine ⟨(dictDel s.configs city_id).map Prod.fst |>.head hl,
        List.head?_eq_head hl, ?_⟩
      show _ ∈ (dictDel s.configs city_id).map Prod.fst
      exact List.head_mem hl
    · intro hnil
      dsimp only at hnil ⊢
      by_cases hcur : s.current_city = some city_id
      · rw [if_pos hcur, hnil]
        rfl
      · rw [if_neg hcur]
        cases hsc : s.current_city with
        | none => rfl
        | some b =>
          exfalso
          have hb := hv b hsc
          have hbne : b ≠ city_id := fun hh => hcur (hh ▸ hsc)
          have hmem : b ∈ (s.configs.map Prod.fst).erase city_id :=
            (List.mem_erase_of_ne hbne).mpr hb
          rw [← map_fst_dictDel, hnil] at hmem
          cases hmem

/-- C5 witness: removing the current city from the seeded store leaves
`current_city` on a still-present key. -/
theorem remove_city_reassignment_witness :
    ∃ c, (defaultState.remove_city "grand_forks_nd").state.current_city = some c ∧
      c ∈ (defaultState.remove_city "grand_forks_nd").state.list_cities := by
  have h := remove_city_reassignment defaultState "grand_forks_nd"
    (fun c hc => by cases hc; decide)
  exact (h.2 rfl).1 rfl (fun hh => List.noConfusion hh)

/-- C6: the end-to-end scenario fails on the code.  From no backing file,
`load()` seeds the three defaults (including `"grand_forks_nd"`) and
`set_current("fargo_nd")` succeeds and persists, but the persisted dump
contains python/tuple tags, so the final fresh `load()` has `safe_load`
fail and re-seeds the defaults: it returns
`current_city = "grand_forks_nd"`, not `"fargo_nd"`. -/
theorem end_to_end_scenario_failure :
    (CityConfigManager.load_configs .missing).1.list_cities =
      ["grand_forks_nd", "fargo_nd", "bismarck_nd"] ∧
    ((CityConfigManager.load_configs .missing).1.set_current_city "fargo_nd").ret = true ∧
    ((CityConfigManager.load_configs .missing).1.set_current_city "fargo_nd").wrote =
      some (save_data { (CityConfigManager.load_configs .missing).1 with
                          current_city := some "fargo_nd" }) ∧
    (CityConfigManager.load_configs (.doc (save_data
        { (CityConfigManager.load_configs .missing).1 with
            current_city := some "fargo_nd" }))).1.current_city =
      some "grand_forks_nd" ∧
    (CityConfigManager.load_configs (.doc (save_data
        { (CityConfigManager.load_configs .missing).1 with
            current_city := some "fargo_nd" }))).1.current_city ≠
      some "fargo_nd" := by
  exact ⟨rfl, rfl, rfl, rfl, by decide⟩

/-- C7: `get_grid_points` enumerates the cross product of the fixed-step
sequences from min (inclusive) to max (exclusive) along each axis, and on
the concrete bounds (0, 0.02) × (0, 0.02) with spacing 0.01 yields exactly
the four pairs in the stated order. -/
theorem get_grid_points_spec :
    (∀ b : CityBounds, 0 < b.grid_spacing →
      ∀ p : Rat × Rat, p ∈ b.get_grid_points ↔
        ∃ i j : ℕ, p.1 = b.min_lat + i * b.grid_spacing ∧
          p.2 = b.min_lon + j * b.grid_spacing ∧
          p.1 < b.max_lat ∧ p.2 < b.max_lon) ∧
    (CityBounds.mk 0 0.02 0 0.02 0.01 0.01 0.01).get_grid_points =
      [(0, 0), (0, 0.01), (0.01, 0), (0.01, 0.01)] := by
  constructor
  · exact fun b hs p => mem_get_grid_points b hs p
  · show (arange 0 0.02 0.01).flatMap
      (fun lat => (arange 0 0.02 0.01).map (fun lon => (lat, lon))) = _
    rw [arange_concrete]
    rfl

/-- C7 witness: the membership characterization at a concrete bound,
spacing, and point. -/
theorem get_grid_points_spec_witness :
    (0 : Rat) < 0.01 ∧
    ((0 : Rat), (0.01 : Rat)) ∈ (CityBounds.mk 0 0.02 0 0.02 0.01 0.01 0.01).get_grid_points := by
  refine ⟨by norm_num, ?_⟩
  refine (get_grid_points_spec.1 (CityBounds.mk 0 0.02 0 0.02 0.01 0.01 0.01)
    (by norm_num) ((0 : Rat), (0.01 : Rat))).mpr ?_
  exact ⟨0, 1, by norm_num, by norm_num, by norm_num, by norm_num⟩

/-- C8: two `add_city` calls with the same `city_id` (on a store with
unique keys) leave exactly one entry under that id, holding the second
configuration; each call persists the store it produced. -/
theorem add_city_latest_wins (s : CityConfigManager) (c1 c2 : CityConfiguration)
    (hid : c1.city_id = c2.city_id) (hnd : s.list_cities.Nodup) :
    ((s.add_city c1).state.add_city c2).state.list_cities.count c1.city_id = 1 ∧
    dictGet ((s.add_city c1).state.add_city c2).state.configs c2.city_id = some c2 ∧
    (s.add_city c1).wrote = some (save_data (s.add_city c1).state) ∧
    ((s.add_city c1).state.add_city c2).wrote =
      some (save_data ((s.add_city c1).state.add_city c2).state) := by
  refine ⟨?_, ?_, rfl, rfl⟩
  · rw [hid]
    show ((dictSet (dictSet s.configs c1.city_id c1) c2.city_id c2).map Prod.fst).count
      c2.city_id = 1
    exact count_map_fst_dictSet _ _ _ (nodup_map_fst_dictSet _ _ _ hnd)
  · exact dictGet_dictSet_self _ _ _

/-- C8 witness: adding `grand_forks` twice (second time with a changed
display name) to an empty store. -/
theorem add_city_latest_wins_witness :
    (((⟨[], none⟩ : CityConfigManager).add_city grand_forks).state.add_city
        { grand_forks with display_name := "GF" }).state.list_cities.count
      "grand_forks_nd" = 1 ∧
    dictGet (((⟨[], none⟩ : CityConfigManager).add_city grand_forks).state.add_city
        { grand_forks with display_name := "GF" }).state.configs "grand_forks_nd" =
      some { grand_forks with display_name := "GF" } := by
  have h := add_city_latest_wins ⟨[], none⟩ grand_forks
    { grand_forks with display_name := "GF" } rfl List.nodup_nil
  exact ⟨h.1, h.2.1⟩

/-- C9: `save_configs` serializes exactly the two top-level fields
`current_city` and `cities` (the latter mapping each id to the full
configuration dict), overwriting the file; when the destination is not
writable the I/O error propagates to the caller instead of being
swallowed. -/
theorem save_configs_spec (writable : Bool) (s : CityConfigManager) :
    (writable = true →
      s.save_configs_write writable = .ok (.doc (save_data s)) ∧
      ∃ m : YamlMap, save_data s = .map m ∧
        m.keys = ["current_city", "cities"] ∧
        m.get "current_city" =
          some (match s.current_city with | none => .null | some c => .str c) ∧
        m.get "cities" =
          some (.map (.ofList (s.configs.map (fun e => (e.1, e.2.to_dict)))))) ∧
    (writable = false → s.save_configs_write writable = .error "IOError") := by
  constructor
  · intro hw
    subst hw
    exact ⟨rfl, _, rfl, rfl, rfl, rfl⟩
  · intro hw
    subst hw
    rfl

/-- C9 witness: both branches at the seeded store. -/
theorem save_configs_spec_witness :
    defaultState.save_configs_write true = .ok (.doc (save_data defaultState)) ∧
    defaultState.save_configs_write false = .error "IOError" :=
  ⟨((save_configs_spec true defaultState).1 rfl).1,
   (save_configs_spec false defaultState).2 rfl⟩

/-- C10: removing the current city reassigns `current_city`
deterministically to the first remaining key in insertion order; removing
a non-current id leaves `current_city` unchanged; removing an unknown id
returns `False` and changes nothing, writing nothing to disk. -/
theorem remove_city_deterministic (s : CityConfigManager) (city_id : String) :
    ((dictGet s.configs city_id).isSome = true →
      (s.current_city = some city_id →
        (s.remove_city city_id).state.current_city =
          (s.list_cities.erase city_id).head?) ∧
      (s.current_city ≠ some city_id →
        (s.remove_city city_id).state.current_city = s.current_city)) ∧
    ((dictGet s.configs city_id).isSome = false →
      s.remove_city city_id = ⟨false, s, none⟩) := by
  constructor
  · intro hp
    rw [remove_city_present s city_id hp]
    constructor
    · intro hcur
      dsimp only
      rw [if_pos hcur, map_fst_dictDel]
      rfl
    · intro hcur
      dsimp only
      rw [if_neg hcur]
  · exact remove_city_absent s city_id

/-- C10 witness: removing the current seeded city yields the next key in
insertion order; removing an unknown id is a no-op returning `False`. -/
theorem remove_city_deterministic_witness :
    (defaultState.remove_city "grand_forks_nd").state.current_city = some "fargo_nd" ∧
    CityConfigManager.remove_city ⟨[("a", grand_forks)], some "a"⟩ "b" =
      ⟨false, ⟨[("a", grand_forks)], some "a"⟩, none⟩ := by
  constructor
  · have h := (remove_city_deterministic defaultState "grand_forks_nd").1 rfl
    rw [h.1 rfl]
    decide
  · exact (remove_city_deterministic ⟨[("a", grand_forks)], some "a"⟩ "b").2 rfl

/-! ### Positive counterpart: round trip for tuple-free stores -/

/-- Whether a tuple-or-list field holds a list. -/
def PyPair.isList : PyPair → Bool
  | .tup _ _ => false
  | .lst _ => true

/-- A configuration whose demographics ranges are lists (as every
configuration produced by a successful load is). -/
def CityConfiguration.tupleFree (c : CityConfiguration) : Bool :=
  c.demographics.typical_population_range.isList &&
  c.demographics.typical_income_range.isList &&
  c.demographics.typical_age_range.isList

theorem parseNumList_ofList (l : List Rat) :
    parseNumList (YamlSeq.ofList (l.map .num)) = some l := by
  induction l with
  | nil => rfl
  | cons q tl ih => simp [YamlSeq.ofList, parseNumList, parseNum, ih]

theorem parseStrList_ofList (l : List String) :
    parseStrList (YamlSeq.ofList (l.map .str)) = some l := by
  induction l with
  | nil => rfl
  | cons s tl ih => simp [YamlSeq.ofList, parseStrList, parseStr, ih]

theorem hasPyTuple_strSeq (l : List String) : (Yaml.strSeq l).hasPyTuple = false := by
  unfold Yaml.strSeq
  show YamlSeq.hasPyTuple _ = false
  induction l with
  | nil => rfl
  | cons s tl ih => simp [YamlSeq.ofList, YamlSeq.hasPyTuple, Yaml.hasPyTuple, ih]

theorem hasPyTuple_numSeq (l : List Rat) : (Yaml.numSeq l).hasPyTuple = false := by
  unfold Yaml.numSeq
  show YamlSeq.hasPyTuple _ = false
  induction l with
  | nil => rfl
  | cons q tl ih => simp [YamlSeq.ofList, YamlSeq.hasPyTuple, Yaml.hasPyTuple, ih]

theorem parseBounds_toYaml (b : CityBounds) : parseBounds b.toYaml = some b := rfl

theorem parseDemographics_toYaml (d : CityDemographics)
    (h1 : d.typical_population_range.isList = true)
    (h2 : d.typical_income_range.isList = true)
    (h3 : d.typical_age_range.isList = true) :
    parseDemographics d.toYaml = some d := by
  obtain ⟨p1, p2, p3, df⟩ := d
  cases p1 with
  | tup a b => cases h1
  | lst l1 =>
    cases p2 with
    | tup a b => cases h2
    | lst l2 =>
      cases p3 with
      | tup a b => cases h3
      | lst l3 =>
        simp [CityDemographics.toYaml, parseDemographics, YamlMap.ofList, YamlMap.keys,
          YamlMap.get, getPair, parsePair, PyPair.toYaml, Yaml.numSeq,
          parseNumList_ofList, getNum, parseNum, demographicsKeys]

theorem parseMarketData_toYaml (m : CityMarketData) :
    parseMarketData m.toYaml = some m := by
  simp [CityMarketData.toYaml, parseMarketData, YamlMap.ofList, YamlMap.keys,
    YamlMap.get, getStr, parseStr, getStrList, parseStrListY, Yaml.strSeq,
    parseStrList_ofList, marketDataKeys]

theorem parseCompetitorData_toYaml (c : CityCompetitorData) :
    parseCompetitorData c.toYaml = some c := by
  simp [CityCompetitorData.toYaml, parseCompetitorData, YamlMap.ofList, YamlMap.keys,
    YamlMap.get, getStr, parseStr, getStrList, parseStrListY, Yaml.strSeq,
    parseStrList_ofList, getNum, parseNum, competitorDataKeys]

theorem from_dict_to_dict (c : CityConfiguration) (h : c.tupleFree = true) :
    CityConfiguration.from_dict c.to_dict = some c := by
  obtain ⟨h1, h2, h3⟩ : c.demographics.typical_population_range.isList = true ∧
      c.demographics.typical_income_range.isList = true ∧
      c.demographics.typical_age_range.isList = true := by
    unfold CityConfiguration.tupleFree at h
    have h := h
    have hh := h
    simp only [Bool.and_eq_true] at hh
    exact ⟨hh.1.1, hh.1.2, hh.2⟩
  simp [CityConfiguration.to_dict, CityConfiguration.from_dict, YamlMap.ofList,
    YamlMap.get, getStr, parseStr, parseBounds_toYaml,
    parseDemographics_toYaml c.demographics h1 h2 h3,
    parseMarketData_toYaml, parseCompetitorData_toYaml]

theorem hasPyTuple_pair_toYaml (p : PyPair) (h : p.isList = true) :
    p.toYaml.hasPyTuple = false := by
  cases p with
  | tup a b => cases h
  | lst l => exact hasPyTuple_numSeq l

theorem hasPyTuple_ofList_str (l : List String) :
    (YamlSeq.ofList (l.map .str)).hasPyTuple = false := by
  induction l with
  | nil => rfl
  | cons s tl ih => simp [YamlSeq.ofList, YamlSeq.hasPyTuple, Yaml.hasPyTuple, ih]

theorem hasPyTuple_ofList_num (l : List Rat) :
    (YamlSeq.ofList (l.map .num)).hasPyTuple = false := by
  induction l with
  | nil => rfl
  | cons q tl ih => simp [YamlSeq.ofList, YamlSeq.hasPyTuple, Yaml.hasPyTuple, ih]

theorem hasPyTuple_to_dict (c : CityConfiguration) (h : c.tupleFree = true) :
    c.to_dict.hasPyTuple = false := by
  obtain ⟨cid, dn, b, d, m, cd⟩ := c
  obtain ⟨p1, p2, p3, df⟩ := d
  cases p1 with
  | tup a1 b1 => simp [CityConfiguration.tupleFree, PyPair.isList] at h
  | lst l1 =>
    cases p2 with
    | tup a2 b2 => simp [CityConfiguration.tupleFree, PyPair.isList] at h
    | lst l2 =>
      cases p3 with
      | tup a3 b3 => simp [CityConfiguration.tupleFree, PyPair.isList] at h
      | lst l3 =>
        simp [CityConfiguration.to_dict, CityBounds.toYaml, CityDemographics.toYaml,
          CityMarketData.toYaml, CityCompetitorData.toYaml, PyPair.toYaml,
          Yaml.strSeq, Yaml.numSeq, YamlMap.ofList, Yaml.hasPyTuple,
          YamlMap.hasPyTuple, hasPyTuple_ofList_str, hasPyTuple_ofList_num]

theorem extractCities_ofList (l : List (String × CityConfiguration))
    (h : ∀ e ∈ l, e.2.tupleFree = true) :
    extractCities (YamlMap.ofList (l.map (fun e => (e.1, e.2.to_dict)))) = some l := by
  induction l with
  | nil => rfl
  | cons e rest ih =>
    simp only [List.map_cons, YamlMap.ofList, extractCities,
      from_dict_to_dict e.2 (h e (by simp)), ih (fun x hx => h x (by simp [hx]))]

theorem hasPyTuple_cities_map (l : List (String × CityConfiguration))
    (h : ∀ e ∈ l, e.2.tupleFree = true) :
    (YamlMap.ofList (l.map (fun e => (e.1, e.2.to_dict)))).hasPyTuple = false := by
  induction l with
  | nil => rfl
  | cons e rest ih =>
    simp only [List.map_cons, YamlMap.ofList, YamlMap.hasPyTuple,
      hasPyTuple_to_dict e.2 (h e (by simp)), ih (fun x hx => h x (by simp [hx])),
      Bool.or_self]

theorem hasPyTuple_save_data (s : CityConfigManager)
    (h : ∀ e ∈ s.configs, e.2.tupleFree = true) :
    (save_data s).hasPyTuple = false := by
  unfold save_data
  simp only [YamlMap.ofList, Yaml.hasPyTuple, YamlMap.hasPyTuple,
    hasPyTuple_cities_map s.configs h, Bool.or_false]
  cases s.current_city <;> rfl

theorem extractStore_save_data (s : CityConfigManager)
    (h : ∀ e ∈ s.configs, e.2.tupleFree = true) :
    extractStore (save_data s) = some s := by
  obtain ⟨cfgs, cur⟩ := s
  unfold save_data extractStore
  cases cur with
  | none =>
      simp only [YamlMap.ofList, YamlMap.get]
      simp [extractCities_ofList cfgs h]
  | some c =>
      simp only [YamlMap.ofList, YamlMap.get]
      simp [extractCities_ofList cfgs h]

/-- For every store whose configurations are tuple-free (as any store
assembled from loaded data is), `save_configs` followed by `load_configs`
on a fresh instance restores the store exactly; the round trip only breaks
on tuple-valued demographics ranges, as in the seeded defaults. -/
theorem save_load_roundtrip_tupleFree (s : CityConfigManager)
    (h : ∀ e ∈ s.configs, e.2.tupleFree = true) :
    CityConfigManager.load_configs s.save_configs = (s, s.save_configs) := by
  show (if (save_data s).hasPyTuple then
          (defaultState, FileState.doc (save_data defaultState))
        else match extractStore (save_data s) with
          | some t => (t, FileState.doc (save_data s))
          | none => (defaultState, FileState.doc (save_data defaultState))) =
      (s, FileState.doc (save_data s))
  rw [hasPyTuple_save_data s h, extractStore_save_data s h]
  rfl

theorem save_load_roundtrip_tupleFree_witness :
    CityConfigManager.load_configs
        (CityConfigManager.save_configs ⟨[], some "zzz"⟩) =
      (⟨[], some "zzz"⟩, CityConfigManager.save_configs ⟨[], some "zzz"⟩) := by
  exact save_load_roundtrip_tupleFree ⟨[], some "zzz"⟩ (fun e he => nomatch he)
